import Mathlib

/-!
Shallow embedding of `webhook_deployer.py`: a Flask webhook endpoint that
verifies an HMAC signature, validates a JSON payload, allocates an external
port from the directory layout under the deployment root, writes a
docker-compose descriptor and runs a two-phase (pull, up) deployment.

The filesystem is modelled as a snapshot of the directory listings the
program consults; file writes, directory creation and subprocess launches
are recorded as an explicit event trace.  Bytes are modelled as `List Nat`,
the HMAC-SHA-256 hex function is an explicit parameter of the verifier and
the handler (the program calls into the `hmac`/`hashlib` library, which is
external to the repository).
-/

namespace WebhookDeployer

/-- Directory snapshot under `DEPLOY_ROOT`: the names of the owner
directories (direct child directories of the root), and for each path
`DEPLOY_ROOT/owner` that exists, the names of the repository directories
under it (an association list; `none` for an owner path that does not
exist). -/
structure FS where
  ownerDirs : List String
  repoDirs : List (String × List String)
deriving DecidableEq

/-- Strict lexicographic order on character lists by code point, the
order Python uses to compare `str` values. -/
def charListLt : List Char → List Char → Bool
  | [], [] => false
  | [], _ :: _ => true
  | _ :: _, [] => false
  | a :: as, b :: bs => if a < b then true else if b < a then false else charListLt as bs

/-- Strict code-point order on strings. -/
def strLt (s t : String) : Bool :=
  charListLt s.toList t.toList

/-- Insert `x` into an already sorted list, keeping it sorted
(code-point order, as Python `sorted` on `str`). -/
def insertSorted (x : String) : List String → List String
  | [] => [x]
  | y :: ys => if strLt y x then y :: insertSorted x ys else x :: y :: ys

/-- Lexicographic (code-point) sort of a list of names, as Python `sorted`. -/
def sortedStrings (l : List String) : List String :=
  l.foldr insertSorted []

/-- Embedding of `get_port_for_repo`: sorts the owner directory names,
takes the index of `owner` (or the length of the list when absent), forms
`base_port = 2000 + owner_index * 1000`, lists the repository directories
under `owner` when that path exists (else the empty list), takes the index
of `repo_name` (or the length when absent) and returns
`base_port + repo_index + 1`. -/
def get_port_for_repo (fs : FS) (owner repo_name : String) : Nat :=
  let owners := sortedStrings fs.ownerDirs
  let owner_index := if owner ∈ owners then owners.indexOf owner else owners.length
  let base_port := 2000 + owner_index * 1000
  let repos :=
    match fs.repoDirs.lookup owner with
    | some rs => sortedStrings rs
    | none => []
  let repo_index := if repo_name ∈ repos then repos.indexOf repo_name else repos.length
  base_port + repo_index + 1

/-- Embedding of `verify_signature`.  `hmacHex secret payload` stands for
`hmac.new(secret, payload, hashlib.sha256).hexdigest()`; a `none` header
models a missing `X-Hub-Signature-256` header.  `hmac.compare_digest` is
a constant-time string equality. -/
def verify_signature (hmacHex : List Nat → List Nat → String)
    (secret payload : List Nat) (sig_header : Option String) : Bool :=
  match sig_header with
  | none => false
  | some s =>
    if secret = [] ∨ s = "" then false
    else ("sha256=" ++ hmacHex secret payload) == s

/-- The f-string template of `ensure_compose_file`, with `full_repo`,
`tag` and `external_port` substituted. -/
def compose_content (full_repo tag : String) (external_port : Nat) : String :=
  "services:\n  app:\n    image: ghcr.io/" ++ full_repo ++ ":" ++ tag ++
  "\n    env_file:\n      - .env\n    environment:\n      - IN_DOCKER=1\n    ports:\n      - \"" ++
  toString external_port ++
  ":5000\"\n    restart: unless-stopped\n    networks:\n      - db-net\n    volumes:\n      - ./data:/data\n\nnetworks:\n  db-net:\n    external: true"

/-- Drop leading whitespace characters. -/
def dropLeadingWs : List Char → List Char
  | [] => []
  | c :: cs => if c.isWhitespace then dropLeadingWs cs else c :: cs

/-- Python `str.strip()`: remove whitespace from both ends. -/
def pyStrip (s : String) : String :=
  String.mk (List.reverse (dropLeadingWs (List.reverse (dropLeadingWs s.toList))))

/-- Split a character list at the first `/`: the part before it and the
rest after it. -/
def splitAtFirstSlash : List Char → List Char × List Char
  | [] => ([], [])
  | c :: cs =>
    if c = '/' then ([], cs)
    else
      let p := splitAtFirstSlash cs
      (c :: p.1, p.2)

/-- Python `full_repo.split("/", 1)`: the part before the first `/` and
the rest (for a string with no `/`, Python would fail to unpack the pair;
the handler only calls this after validating that exactly one `/`
occurs). -/
def splitRepo (s : String) : String × String :=
  (String.mk (splitAtFirstSlash s.toList).1, String.mk (splitAtFirstSlash s.toList).2)

/-- Embedding of `ensure_compose_file`: computes the external port from
the current snapshot and renders the template.  (The write itself is
recorded as an event by the handler.) -/
def ensure_compose_file (fs : FS) (full_repo tag : String) : String :=
  let owner := (splitRepo full_repo).1
  let repo_name := (splitRepo full_repo).2
  compose_content full_repo tag (get_port_for_repo fs owner repo_name)

/-- The character set accepted by the repo-format check:
`c.isalnum() or c in "-_./"`. -/
def allowedChar (c : Char) : Bool :=
  c.isAlphanum || c == '-' || c == '_' || c == '.' || c == '/'

/-- The repo-format check of the handler:
`full_repo` non-empty, `full_repo.count("/") == 1`, and every character
alphanumeric or in `"-_./"` (negation of the `abort` condition). -/
def validRepo (s : String) : Bool :=
  !(s == "") && (s.toList.count '/' == 1) && s.toList.all allowedChar

/-- Append `x` when absent (the effect of creating a directory that may
already exist on the listing of its parent). -/
def addIfAbsent (x : String) (xs : List String) : List String :=
  if x ∈ xs then xs else xs ++ [x]

/-- Replace the binding of `owner` in the association list (or add it). -/
def setRepoDirs (m : List (String × List String)) (owner : String)
    (rs : List String) : List (String × List String) :=
  match m with
  | [] => [(owner, rs)]
  | (o, r) :: rest =>
    if o = owner then (owner, rs) :: rest else (o, r) :: setRepoDirs rest owner rs

/-- Effect of `repo_path.mkdir(parents=True, exist_ok=True)` for
`DEPLOY_ROOT/owner/name` on the snapshot: the owner directory now exists
and is listed, and `name` is listed under it. -/
def mkdirRepo (fs : FS) (owner name : String) : FS :=
  { ownerDirs := addIfAbsent owner fs.ownerDirs
    repoDirs := setRepoDirs fs.repoDirs owner
      (addIfAbsent name ((fs.repoDirs.lookup owner).getD [])) }

/-- Result of one `subprocess.run` invocation of the external tool. -/
structure ProcOut where
  returncode : Int
  stdout : String
  stderr : String
deriving DecidableEq

/-- Outcome of launching one phase: a completed process, a
`subprocess.TimeoutExpired` (the 120-second bound was exceeded), or any
other exception while running it. -/
inductive ProcResult
  | completed (out : ProcOut)
  | timedOut
  | execError (msg : String)
deriving DecidableEq

/-- The `timeout=120` argument passed to both `subprocess.run` calls. -/
def composeTimeoutSeconds : Nat := 120

/-- Side effects the handler performs, in order. -/
inductive Event
  | mkdir (owner name : String)
  | writeDescriptor (owner name : String) (content : String)
  | runPull
  | runUp
deriving DecidableEq

/-- Wire-level body of a response: an `abort(code, description=...)`, a
`jsonify({"error": ..., "stdout"?, "stderr"?, "details"?})`, or the
success body. -/
inductive RespBody
  | message (description : String)
  | jsonError (error : String) (stdout stderr details : Option String)
  | jsonSuccess (status repo tag : String) (port : Nat) (message : String)
deriving DecidableEq

structure HttpResponse where
  status : Nat
  body : RespBody
deriving DecidableEq

/-- What a handler run produced: the response, the ordered event trace,
and the final snapshot. -/
structure HandlerResult where
  response : HttpResponse
  events : List Event
  fs : FS
deriving DecidableEq

/-- Fields of the JSON body the handler reads (`data.get("repo")`,
`data.get("tag")`; `compose_b64` appears in the spec of the richer
revision). -/
structure Payload where
  repo : Option String
  tag : Option String
  compose_b64 : Option String
deriving DecidableEq

/-- The body as seen through `request.get_json()`: parsing raised, the
parsed value was falsy (`if not data`), or an object.  Both raising and a
falsy value end in `abort(400, description="Invalid JSON")`: the
`abort(400, description="Empty payload")` raised inside the `try` block
is itself an `Exception`, caught by the `except` clause which replaces it. -/
inductive BodyJson
  | invalid
  | empty
  | obj (p : Payload)
deriving DecidableEq

/-- The pull/up sequence of the handler (lines 122-183): pull, on nonzero
exit return `Pull failed` with the captured streams; otherwise up, on
nonzero exit return `Deploy failed`; otherwise the success body, whose
port is recomputed by a fresh `get_port_for_repo` call.
`subprocess.TimeoutExpired` from either call is caught by the common
handler returning `Deployment timeout`; any other exception becomes
`Internal server error`. -/
def runPhases (fs : FS) (evs : List Event) (full_repo tag owner repo_name : String)
    (pullRes upRes : ProcResult) : HandlerResult :=
  match pullRes with
  | .timedOut =>
    ⟨⟨500, .jsonError "Deployment timeout" none none none⟩, evs ++ [.runPull], fs⟩
  | .execError m =>
    ⟨⟨500, .jsonError "Internal server error" none none (some m)⟩, evs ++ [.runPull], fs⟩
  | .completed pull =>
    if pull.returncode ≠ 0 then
      ⟨⟨500, .jsonError "Pull failed" (some pull.stdout) (some pull.stderr) none⟩,
        evs ++ [.runPull], fs⟩
    else
      match upRes with
      | .timedOut =>
        ⟨⟨500, .jsonError "Deployment timeout" none none none⟩,
          evs ++ [.runPull, .runUp], fs⟩
      | .execError m =>
        ⟨⟨500, .jsonError "Internal server error" none none (some m)⟩,
          evs ++ [.runPull, .runUp], fs⟩
      | .completed up =>
        if up.returncode ≠ 0 then
          ⟨⟨500, .jsonError "Deploy failed" (some up.stdout) (some up.stderr) none⟩,
            evs ++ [.runPull, .runUp], fs⟩
        else
          ⟨⟨200, .jsonSuccess "success" full_repo tag
              (get_port_for_repo fs owner repo_name) "Deployed successfully"⟩,
            evs ++ [.runPull, .runUp], fs⟩

/-- Embedding of the `webhook` handler, faithful to the revision under
`src`: signature check, JSON parsing, repo/tag validation, `mkdir` of
`DEPLOY_ROOT/owner/repo_name`, descriptor write, then the two phases.
`pullRes`/`upRes` model what the external tool would do if launched. -/
def webhook (hmacHex : List Nat → List Nat → String) (secret : List Nat)
    (fs : FS) (pullRes upRes : ProcResult)
    (sig : Option String) (payload : List Nat) (body : BodyJson) : HandlerResult :=
  if verify_signature hmacHex secret payload sig then
    match body with
    | .invalid => ⟨⟨400, .message "Invalid JSON"⟩, [], fs⟩
    | .empty => ⟨⟨400, .message "Invalid JSON"⟩, [], fs⟩
    | .obj p =>
      let full_repo := pyStrip (p.repo.getD "")
      let tag := pyStrip (p.tag.getD "")
      if validRepo full_repo then
        if tag = "" then ⟨⟨400, .message "Tag is required"⟩, [], fs⟩
        else
          let owner := (splitRepo full_repo).1
          let repo_name := (splitRepo full_repo).2
          let fs1 := mkdirRepo fs owner repo_name
          let content := ensure_compose_file fs1 full_repo tag
          runPhases fs1
            [.mkdir owner repo_name, .writeDescriptor owner repo_name content]
            full_repo tag owner repo_name pullRes upRes
      else ⟨⟨400, .message "Invalid repo format"⟩, [], fs⟩
  else ⟨⟨403, .message "Invalid signature"⟩, [], fs⟩

/-- Value of one base64 alphabet character. -/
def b64Val (c : Char) : Option Nat :=
  if 'A' ≤ c ∧ c ≤ 'Z' then some (c.toNat - 65)
  else if 'a' ≤ c ∧ c ≤ 'z' then some (c.toNat - 97 + 26)
  else if '0' ≤ c ∧ c ≤ '9' then some (c.toNat - 48 + 52)
  else if c = '+' then some 62
  else if c = '/' then some 63
  else none

/-- Standard base64 decoding of four-character groups into bytes;
`=` padding only in the final group. -/
def b64Chunks : List Char → Option (List Nat)
  | [] => some []
  | c1 :: c2 :: c3 :: c4 :: rest =>
    match b64Val c1, b64Val c2 with
    | some v1, some v2 =>
      if c3 = '=' then
        if c4 = '=' ∧ rest = [] then some [v1 * 4 + v2 / 16] else none
      else
        match b64Val c3 with
        | some v3 =>
          if c4 = '=' then
            if rest = [] then some [v1 * 4 + v2 / 16, (v2 % 16) * 16 + v3 / 4]
            else none
          else
            match b64Val c4 with
            | some v4 =>
              match b64Chunks rest with
              | some bs =>
                some ([v1 * 4 + v2 / 16, (v2 % 16) * 16 + v3 / 4,
                       (v3 % 4) * 64 + v4] ++ bs)
              | none => none
            | none => none
        | none => none
    | _, _ => none
  | _ => none

/-- Modelled from the spec: standard base64 decoding of the supplied
descriptor payload (the decoding step of the supplied mode of the
Descriptor Synthesizer, which is missing from the revision under `src`);
`none` models a decoding failure. -/
def base64Decode (s : String) : Option (List Nat) :=
  b64Chunks s.toList

/-- Raw bytes viewed as descriptor text, one character per byte. -/
def bytesAsString (bs : List Nat) : String :=
  String.mk (bs.map (fun b => Char.ofNat b))

/-- Modelled from the spec: the `webhook` handler of the richer revision,
extending the one under `src` with the supplied-descriptor mode.  A
present `compose_b64` field is decoded as standard base64 during payload
validation; a decoding failure is a `BadRequest` with reason
`Invalid compose_b64`; on success the decoded text is written verbatim to
the canonical descriptor path instead of the rendered template. -/
def webhookWithCompose (hmacHex : List Nat → List Nat → String) (secret : List Nat)
    (fs : FS) (pullRes upRes : ProcResult)
    (sig : Option String) (payload : List Nat) (body : BodyJson) : HandlerResult :=
  if verify_signature hmacHex secret payload sig then
    match body with
    | .invalid => ⟨⟨400, .message "Invalid JSON"⟩, [], fs⟩
    | .empty => ⟨⟨400, .message "Invalid JSON"⟩, [], fs⟩
    | .obj p =>
      let full_repo := pyStrip (p.repo.getD "")
      let tag := pyStrip (p.tag.getD "")
      if validRepo full_repo then
        if tag = "" then ⟨⟨400, .message "Tag is required"⟩, [], fs⟩
        else
          let owner := (splitRepo full_repo).1
          let repo_name := (splitRepo full_repo).2
          match p.compose_b64 with
          | some b =>
            match base64Decode b with
            | none => ⟨⟨400, .message "Invalid compose_b64"⟩, [], fs⟩
            | some bs =>
              let fs1 := mkdirRepo fs owner repo_name
              runPhases fs1
                [.mkdir owner repo_name,
                 .writeDescriptor owner repo_name (bytesAsString bs)]
                full_repo tag owner repo_name pullRes upRes
          | none =>
            let fs1 := mkdirRepo fs owner repo_name
            runPhases fs1
              [.mkdir owner repo_name,
               .writeDescriptor owner repo_name (ensure_compose_file fs1 full_repo tag)]
              full_repo tag owner repo_name pullRes upRes
      else ⟨⟨400, .message "Invalid repo format"⟩, [], fs⟩
  else ⟨⟨403, .message "Invalid signature"⟩, [], fs⟩

/-- The descriptor contents written during a run, in order. -/
def descriptorWrites (evs : List Event) : List String :=
  evs.filterMap (fun e =>
    match e with
    | .writeDescriptor _ _ c => some c
    | _ => none)

end WebhookDeployer

namespace WebhookDeployer

set_option maxRecDepth 100000

/-- The rank the spec assigns to an owner: the zero-based position of
`owner` in the lexicographically sorted list of existing owner
directories, or the length of that list when absent (`findIdx` returns
the length when no element matches). -/
def ownerRank (fs : FS) (owner : String) : Nat :=
  (sortedStrings fs.ownerDirs).findIdx (fun d => d == owner)

/-- The rank the spec assigns to a repository name under an owner: the
zero-based position of `name` in the lexicographically sorted list of
existing repository directories under `owner`, or the length of that
list when absent, or `0` when the owner directory does not exist. -/
def repoRank (fs : FS) (owner name : String) : Nat :=
  match fs.repoDirs.lookup owner with
  | some rs => (sortedStrings rs).findIdx (fun d => d == name)
  | none => 0

theorem mem_index_or_length (a : String) (l : List String) :
    (if a ∈ l then l.indexOf a else l.length) = l.findIdx (fun d => d == a) := by
  by_cases h : a ∈ l
  · simp [h, List.indexOf]
  · simp only [h, if_false]
    exact (List.findIdx_eq_length.mpr (fun x hx => by
      simp only [beq_eq_false_iff_ne]
      exact fun hxa => h (hxa ▸ hx))).symm

/-- The final snapshot of the pull/up sequence is the snapshot it was
started on: the phases do not touch the deployment root. -/
theorem runPhases_fs (fs : FS) (evs : List Event) (fr tg o n : String)
    (pr ur : ProcResult) : (runPhases fs evs fr tg o n pr ur).fs = fs := by
  cases pr with
  | timedOut => rfl
  | execError m => rfl
  | completed pull =>
    by_cases h : pull.returncode ≠ 0
    · simp [runPhases, h]
    · cases ur with
      | timedOut => simp [runPhases, h]
      | execError m => simp [runPhases, h]
      | completed up =>
        by_cases h2 : up.returncode ≠ 0 <;> simp [runPhases, h, h2]

/-- The pull/up sequence appends no descriptor writes to the trace. -/
theorem descriptorWrites_runPhases (fs : FS) (evs : List Event) (fr tg o n : String)
    (pr ur : ProcResult) :
    descriptorWrites (runPhases fs evs fr tg o n pr ur).events = descriptorWrites evs := by
  cases pr with
  | timedOut => simp [runPhases, descriptorWrites]
  | execError m => simp [runPhases, descriptorWrites]
  | completed pull =>
    by_cases h : pull.returncode ≠ 0
    · simp [runPhases, h, descriptorWrites]
    · cases ur with
      | timedOut => simp [runPhases, h, descriptorWrites]
      | execError m => simp [runPhases, h, descriptorWrites]
      | completed up =>
        by_cases h2 : up.returncode ≠ 0 <;> simp [runPhases, h, h2, descriptorWrites]

theorem addIfAbsent_mem (x : String) (xs : List String) : x ∈ addIfAbsent x xs := by
  by_cases h : x ∈ xs <;> simp [addIfAbsent, h]

theorem addIfAbsent_of_mem {x : String} {xs : List String} (h : x ∈ xs) :
    addIfAbsent x xs = xs := by
  simp [addIfAbsent, h]

theorem lookup_setRepoDirs (m : List (String × List String)) (o : String)
    (rs : List String) : (setRepoDirs m o rs).lookup o = some rs := by
  induction m with
  | nil => simp [setRepoDirs, List.lookup]
  | cons hd tl ih =>
    obtain ⟨k, v⟩ := hd
    by_cases h : k = o
    · simp [setRepoDirs, h, List.lookup]
    · simp only [setRepoDirs, h, if_false]
      rw [List.lookup, beq_eq_false_iff_ne.mpr (fun he => h he.symm)]
      exact ih

theorem setRepoDirs_setRepoDirs (m : List (String × List String)) (o : String)
    (rs rs' : List String) :
    setRepoDirs (setRepoDirs m o rs) o rs' = setRepoDirs m o rs' := by
  induction m with
  | nil => simp [setRepoDirs]
  | cons hd tl ih =>
    obtain ⟨k, v⟩ := hd
    by_cases h : k = o
    · simp [setRepoDirs, h]
    · simp [setRepoDirs, h, ih]

/-- Re-creating an already created `owner/name` directory pair is a
no-op on the snapshot (`mkdir(parents=True, exist_ok=True)`). -/
theorem mkdirRepo_idem (fs : FS) (o n : String) :
    mkdirRepo (mkdirRepo fs o n) o n = mkdirRepo fs o n := by
  unfold mkdirRepo
  congr 1
  · exact addIfAbsent_of_mem (addIfAbsent_mem o fs.ownerDirs)
  · rw [lookup_setRepoDirs]
    simp only [Option.getD_some]
    rw [addIfAbsent_of_mem (addIfAbsent_mem n _)]
    exact setRepoDirs_setRepoDirs _ _ _ _

end WebhookDeployer

namespace WebhookDeployer

/-- C4: for every snapshot and every (owner, name) the port allocator
returns exactly 2000 + 1000 * ownerRank + 1 + repoRank, with ownerRank
the zero-based index of the owner in the lexicographically sorted list of
existing owner directories (or its length when absent) and repoRank the
analogous index among the repository directories under the owner (or that
length when absent, or 0 when the owner directory does not exist); and
repeated calls on the same snapshot return the identical port. -/
theorem get_port_for_repo_formula (fs : FS) (owner name : String) :
    get_port_for_repo fs owner name
      = 2000 + 1000 * ownerRank fs owner + 1 + repoRank fs owner name ∧
    get_port_for_repo fs owner name = get_port_for_repo fs owner name := by
  refine ⟨?_, rfl⟩
  unfold get_port_for_repo ownerRank repoRank
  dsimp only
  rw [mem_index_or_length]
  cases h : fs.repoDirs.lookup owner with
  | none => simp [h]; ring
  | some rs => simp only [h]; rw [mem_index_or_length]; ring

/-- C5: the signature verifier returns false (and, being a total
function, never throws) when the configured secret is empty, when the
signature header is absent or empty, and when the presented signature
differs from "sha256=" followed by the hex HMAC-SHA-256 of the raw body
under the secret; in particular with an empty secret it returns false
for every body and every signature. -/
theorem verify_signature_rejects (hmacHex : List Nat → List Nat → String)
    (secret payload : List Nat) (sig : Option String) :
    (secret = [] → verify_signature hmacHex secret payload sig = false) ∧
    (sig = none → verify_signature hmacHex secret payload sig = false) ∧
    (sig = some "" → verify_signature hmacHex secret payload sig = false) ∧
    (∀ s, sig = some s → s ≠ "sha256=" ++ hmacHex secret payload →
      verify_signature hmacHex secret payload sig = false) := by
  refine ⟨?_, ?_, ?_, ?_⟩
  · intro h
    cases sig with
    | none => rfl
    | some s => simp [verify_signature, h]
  · intro h; subst h; rfl
  · intro h; subst h; simp [verify_signature]
  · intro s hs hne
    subst hs
    simp only [verify_signature]
    by_cases h : secret = [] ∨ s = ""
    · simp [h]
    · simp only [h, if_false]
      exact beq_eq_false_iff_ne.mpr (fun he => hne he.symm)

/-- Witness for C5 at a concrete input: empty secret, structurally valid
signature, still rejected. -/
theorem verify_signature_rejects_w :
    verify_signature (fun _ _ => "aa") [] [7] (some "sha256=aa") = false :=
  (verify_signature_rejects (fun _ _ => "aa") [] [7] (some "sha256=aa")).1 rfl

/-- C8: a request that fails signature verification is answered 403 with
no further processing: the event trace is empty (no directory created, no
descriptor written, no external tool launched) and the snapshot is
returned unchanged. -/
theorem invalid_signature_no_effects (hmacHex : List Nat → List Nat → String)
    (secret : List Nat) (fs : FS) (pullRes upRes : ProcResult)
    (sig : Option String) (payload : List Nat) (body : BodyJson)
    (hsig : verify_signature hmacHex secret payload sig = false) :
    webhook hmacHex secret fs pullRes upRes sig payload body
      = ⟨⟨403, .message "Invalid signature"⟩, [], fs⟩ := by
  simp [webhook, hsig]

/-- Witness for C8 at a concrete input: missing secret, otherwise valid
request; nothing happens but the 403. -/
theorem invalid_signature_no_effects_w :
    webhook (fun _ _ => "aa") [] ⟨["acme"], [("acme", ["widgets"])]⟩
        (.completed ⟨0, "", ""⟩) (.completed ⟨0, "", ""⟩)
        (some "sha256=aa") [7] (.obj ⟨some "acme/widgets", some "v1", none⟩)
      = ⟨⟨403, .message "Invalid signature"⟩, [],
          ⟨["acme"], [("acme", ["widgets"])]⟩⟩ :=
  invalid_signature_no_effects (fun _ _ => "aa") [] _ _ _ _ _ _ rfl

end WebhookDeployer

namespace WebhookDeployer

/-- C6: when the pull phase exits nonzero, the up phase is never invoked
(no runUp event in the trace) and the handler answers 500 with error
"Pull failed" carrying exactly the captured stdout and stderr of the
pull phase. -/
theorem pull_failure_short_circuit (hmacHex : List Nat → List Nat → String)
    (secret : List Nat) (fs : FS) (out : ProcOut) (upRes : ProcResult)
    (sig : Option String) (payload : List Nat) (p : Payload)
    (hsig : verify_signature hmacHex secret payload sig = true)
    (hrepo : validRepo (pyStrip (p.repo.getD "")) = true)
    (htag : pyStrip (p.tag.getD "") ≠ "")
    (hrc : out.returncode ≠ 0) :
    (webhook hmacHex secret fs (.completed out) upRes sig payload (.obj p)).response
        = ⟨500, .jsonError "Pull failed" (some out.stdout) (some out.stderr) none⟩ ∧
    Event.runUp ∉ (webhook hmacHex secret fs (.completed out) upRes sig payload (.obj p)).events := by
  simp [webhook, hsig, hrepo, htag, runPhases, hrc]

/-- Witness for C6: concrete failing pull. -/
theorem pull_failure_short_circuit_w :
    (webhook (fun _ _ => "aa") [1] ⟨[], []⟩ (.completed ⟨1, "o", "e"⟩)
        (.completed ⟨0, "", ""⟩) (some "sha256=aa") []
        (.obj ⟨some "acme/widgets", some "v1", none⟩)).response
      = ⟨500, .jsonError "Pull failed" (some "o") (some "e") none⟩ ∧
    Event.runUp ∉ (webhook (fun _ _ => "aa") [1] ⟨[], []⟩ (.completed ⟨1, "o", "e"⟩)
        (.completed ⟨0, "", ""⟩) (some "sha256=aa") []
        (.obj ⟨some "acme/widgets", some "v1", none⟩)).events :=
  pull_failure_short_circuit (fun _ _ => "aa") [1] ⟨[], []⟩ ⟨1, "o", "e"⟩
    (.completed ⟨0, "", ""⟩) (some "sha256=aa") [] ⟨some "acme/widgets", some "v1", none⟩
    (by decide) (by decide) (by decide) (by decide)

end WebhookDeployer

namespace WebhookDeployer

/-- C9: when either phase exceeds the 120-second bound (the `timeout=120`
passed to both `subprocess.run` calls), the handler answers 500 with the
distinct message "Deployment timeout" whose body carries no stdout or
stderr fields, an outcome different from the bodies produced by a
nonzero exit of either phase. -/
theorem timeout_distinct_outcome (hmacHex : List Nat → List Nat → String)
    (secret : List Nat) (fs : FS) (pullRes upRes : ProcResult)
    (sig : Option String) (payload : List Nat) (p : Payload)
    (hsig : verify_signature hmacHex secret payload sig = true)
    (hrepo : validRepo (pyStrip (p.repo.getD "")) = true)
    (htag : pyStrip (p.tag.getD "") ≠ "")
    (htime : pullRes = .timedOut ∨
      (∃ out, pullRes = .completed out ∧ out.returncode = 0 ∧ upRes = .timedOut)) :
    (webhook hmacHex secret fs pullRes upRes sig payload (.obj p)).response
        = ⟨500, .jsonError "Deployment timeout" none none none⟩ ∧
    composeTimeoutSeconds = 120 ∧
    (∀ o e, RespBody.jsonError "Deployment timeout" none none none
        ≠ RespBody.jsonError "Pull failed" (some o) (some e) none ∧
      RespBody.jsonError "Deployment timeout" none none none
        ≠ RespBody.jsonError "Deploy failed" (some o) (some e) none) := by
  refine ⟨?_, rfl, fun o e => by simp⟩
  rcases htime with h | ⟨out, hp, hrc, hu⟩
  · subst h
    simp [webhook, hsig, hrepo, htag, runPhases]
  · subst hp; subst hu
    simp [webhook, hsig, hrepo, htag, runPhases, hrc]

/-- Witness for C9: concrete pull timeout. -/
theorem timeout_distinct_outcome_w :
    (webhook (fun _ _ => "aa") [1] ⟨[], []⟩ .timedOut (.completed ⟨0, "", ""⟩)
        (some "sha256=aa") [] (.obj ⟨some "acme/widgets", some "v1", none⟩)).response
      = ⟨500, .jsonError "Deployment timeout" none none none⟩ :=
  (timeout_distinct_outcome (fun _ _ => "aa") [1] ⟨[], []⟩ .timedOut
    (.completed ⟨0, "", ""⟩) (some "sha256=aa") []
    ⟨some "acme/widgets", some "v1", none⟩
    (by decide) (by decide) (by decide) (Or.inl rfl)).1

/-- C10: a successful run answers 200 with a body holding the fields
status="success", repo, tag, a port recomputed by a fresh call of the
port allocator on the final snapshot, and message="Deployed
successfully"; since the snapshot does not change between the descriptor
write and the response, this reported port is exactly the external port
substituted into the written descriptor. -/
theorem success_response_port (hmacHex : List Nat → List Nat → String)
    (secret : List Nat) (fs : FS) (pull up : ProcOut)
    (sig : Option String) (payload : List Nat) (p : Payload)
    (hsig : verify_signature hmacHex secret payload sig = true)
    (hrepo : validRepo (pyStrip (p.repo.getD "")) = true)
    (htag : pyStrip (p.tag.getD "") ≠ "")
    (hpull : pull.returncode = 0) (hup : up.returncode = 0) :
    (webhook hmacHex secret fs (.completed pull) (.completed up) sig payload (.obj p)).response
        = ⟨200, .jsonSuccess "success" (pyStrip (p.repo.getD "")) (pyStrip (p.tag.getD ""))
            (get_port_for_repo
              (mkdirRepo fs (splitRepo (pyStrip (p.repo.getD ""))).1
                (splitRepo (pyStrip (p.repo.getD ""))).2)
              (splitRepo (pyStrip (p.repo.getD ""))).1
              (splitRepo (pyStrip (p.repo.getD ""))).2)
            "Deployed successfully"⟩ ∧
    Event.writeDescriptor (splitRepo (pyStrip (p.repo.getD ""))).1
        (splitRepo (pyStrip (p.repo.getD ""))).2
        (compose_content (pyStrip (p.repo.getD "")) (pyStrip (p.tag.getD ""))
          (get_port_for_repo
            (mkdirRepo fs (splitRepo (pyStrip (p.repo.getD ""))).1
              (splitRepo (pyStrip (p.repo.getD ""))).2)
            (splitRepo (pyStrip (p.repo.getD ""))).1
            (splitRepo (pyStrip (p.repo.getD ""))).2))
      ∈ (webhook hmacHex secret fs (.completed pull) (.completed up) sig payload (.obj p)).events := by
  simp [webhook, hsig, hrepo, htag, runPhases, hpull, hup, ensure_compose_file]

/-- Witness for C10: concrete successful run; the reported port and the
port in the written descriptor are both 2001. -/
theorem success_response_port_w :
    (webhook (fun _ _ => "aa") [1] ⟨[], []⟩ (.completed ⟨0, "", ""⟩)
        (.completed ⟨0, "", ""⟩) (some "sha256=aa") []
        (.obj ⟨some "acme/widgets", some "v1", none⟩)).response
      = ⟨200, .jsonSuccess "success" "acme/widgets" "v1"
          (get_port_for_repo (mkdirRepo ⟨[], []⟩ "acme" "widgets") "acme" "widgets")
          "Deployed successfully"⟩ :=
  (success_response_port (fun _ _ => "aa") [1] ⟨[], []⟩ ⟨0, "", ""⟩ ⟨0, "", ""⟩
    (some "sha256=aa") [] ⟨some "acme/widgets", some "v1", none⟩
    (by decide) (by decide) (by decide) rfl rfl).1

end WebhookDeployer

namespace WebhookDeployer

set_option maxRecDepth 1000000


theorem descriptorWrites_nil : descriptorWrites [] = [] := rfl

theorem descriptorWrites_mkdir (o n : String) (evs : List Event) :
    descriptorWrites (.mkdir o n :: evs) = descriptorWrites evs := rfl

theorem descriptorWrites_write (o n c : String) (evs : List Event) :
    descriptorWrites (.writeDescriptor o n c :: evs) = c :: descriptorWrites evs := rfl

/-- C7: running the handler twice with the identical payload, the second
run starting from the snapshot the first run left behind, writes
byte-identical descriptor content both times; that content is the pure
template rendering for the post-mkdir snapshot, independent of any
previously written descriptor (synthesis never reads the prior file). -/
theorem descriptor_idempotent (hmacHex : List Nat → List Nat → String)
    (secret : List Nat) (fs : FS) (pr ur pr2 ur2 : ProcResult)
    (sig : Option String) (payload : List Nat) (p : Payload)
    (hsig : verify_signature hmacHex secret payload sig = true)
    (hrepo : validRepo (pyStrip (p.repo.getD "")) = true)
    (htag : pyStrip (p.tag.getD "") ≠ "") :
    descriptorWrites (webhook hmacHex secret
        (webhook hmacHex secret fs pr ur sig payload (.obj p)).fs
        pr2 ur2 sig payload (.obj p)).events
      = descriptorWrites (webhook hmacHex secret fs pr ur sig payload (.obj p)).events ∧
    descriptorWrites (webhook hmacHex secret fs pr ur sig payload (.obj p)).events
      = [ensure_compose_file
          (mkdirRepo fs (splitRepo (pyStrip (p.repo.getD ""))).1
            (splitRepo (pyStrip (p.repo.getD ""))).2)
          (pyStrip (p.repo.getD "")) (pyStrip (p.tag.getD ""))] := by
  simp [webhook, hsig, hrepo, htag, runPhases_fs, descriptorWrites_runPhases,
    mkdirRepo_idem, descriptorWrites_mkdir, descriptorWrites_write, descriptorWrites_nil]

/-- Witness for C7: two consecutive concrete runs write the same single
descriptor. -/
theorem descriptor_idempotent_w :
    descriptorWrites (webhook (fun _ _ => "aa") [1]
        (webhook (fun _ _ => "aa") [1] ⟨[], []⟩ (.completed ⟨0, "", ""⟩)
          (.completed ⟨0, "", ""⟩) (some "sha256=aa") []
          (.obj ⟨some "acme/widgets", some "v1", none⟩)).fs
        (.completed ⟨0, "", ""⟩) (.completed ⟨0, "", ""⟩) (some "sha256=aa") []
        (.obj ⟨some "acme/widgets", some "v1", none⟩)).events
      = descriptorWrites (webhook (fun _ _ => "aa") [1] ⟨[], []⟩
          (.completed ⟨0, "", ""⟩) (.completed ⟨0, "", ""⟩) (some "sha256=aa") []
          (.obj ⟨some "acme/widgets", some "v1", none⟩)).events :=
  (descriptor_idempotent (fun _ _ => "aa") [1] ⟨[], []⟩ (.completed ⟨0, "", ""⟩)
    (.completed ⟨0, "", ""⟩) (.completed ⟨0, "", ""⟩) (.completed ⟨0, "", ""⟩)
    (some "sha256=aa") [] ⟨some "acme/widgets", some "v1", none⟩
    (by decide) (by decide) (by decide)).1

/-- C1: in the handler extended with the supplied-descriptor mode
(modelled from the spec, this branch being absent from the revision
under src), a request carrying a decodable compose_b64 gets exactly the
decoded text written verbatim as the descriptor (the template is not
rendered), while a request whose compose_b64 is not syntactically
decodable base64 is answered 400 "Invalid compose_b64" with no
descriptor written. -/
theorem compose_b64_supplied_mode (hmacHex : List Nat → List Nat → String)
    (secret : List Nat) (fs : FS) (pr ur : ProcResult)
    (sig : Option String) (payload : List Nat) (p : Payload) (b : String)
    (hsig : verify_signature hmacHex secret payload sig = true)
    (hrepo : validRepo (pyStrip (p.repo.getD "")) = true)
    (htag : pyStrip (p.tag.getD "") ≠ "")
    (hb : p.compose_b64 = some b) :
    (∀ bs, base64Decode b = some bs →
      descriptorWrites (webhookWithCompose hmacHex secret fs pr ur sig payload (.obj p)).events
        = [bytesAsString bs]) ∧
    (base64Decode b = none →
      (webhookWithCompose hmacHex secret fs pr ur sig payload (.obj p)).response
          = ⟨400, .message "Invalid compose_b64"⟩ ∧
      descriptorWrites (webhookWithCompose hmacHex secret fs pr ur sig payload (.obj p)).events
        = []) := by
  constructor
  · intro bs hbs
    simp [webhookWithCompose, hsig, hrepo, htag, hb, hbs, descriptorWrites_runPhases,
      descriptorWrites_mkdir, descriptorWrites_write, descriptorWrites_nil]
  · intro hbs
    simp [webhookWithCompose, hsig, hrepo, htag, hb, hbs, descriptorWrites_nil]

/-- Witness for C1: the concrete payload "aGk=" decodes to the two bytes
of "hi", which become the descriptor verbatim; the concrete payload
"%%%" is rejected with 400 "Invalid compose_b64" and nothing is
written. -/
theorem compose_b64_supplied_mode_w :
    descriptorWrites (webhookWithCompose (fun _ _ => "aa") [1] ⟨[], []⟩
        (.completed ⟨0, "", ""⟩) (.completed ⟨0, "", ""⟩) (some "sha256=aa") []
        (.obj ⟨some "acme/widgets", some "v1", some "aGk="⟩)).events
      = [bytesAsString [104, 105]] ∧
    (webhookWithCompose (fun _ _ => "aa") [1] ⟨[], []⟩
        (.completed ⟨0, "", ""⟩) (.completed ⟨0, "", ""⟩) (some "sha256=aa") []
        (.obj ⟨some "acme/widgets", some "v1", some "%%%"⟩)).response
      = ⟨400, .message "Invalid compose_b64"⟩ :=
  ⟨(compose_b64_supplied_mode (fun _ _ => "aa") [1] ⟨[], []⟩
      (.completed ⟨0, "", ""⟩) (.completed ⟨0, "", ""⟩) (some "sha256=aa") []
      ⟨some "acme/widgets", some "v1", some "aGk="⟩ "aGk="
      (by decide) (by decide) (by decide) rfl).1 [104, 105] (by decide),
   ((compose_b64_supplied_mode (fun _ _ => "aa") [1] ⟨[], []⟩
      (.completed ⟨0, "", ""⟩) (.completed ⟨0, "", ""⟩) (some "sha256=aa") []
      ⟨some "acme/widgets", some "v1", some "%%%"⟩ "%%%"
      (by decide) (by decide) (by decide) rfl).2 (by decide)).1⟩

end WebhookDeployer

namespace WebhookDeployer

set_option maxRecDepth 1000000

/-- C2 is false as stated: on the snapshot with owner directories
["acme","globex"] and repository directories ["widgets"] under acme, a
valid signed request for "acme/gadgets" writes the descriptor with
external port 2001, not 2002 — the handler creates
DEPLOY_ROOT/acme/gadgets before allocating, so "gadgets" is ranked
among the existing repository directories (index 0 of
["gadgets","widgets"]). -/
theorem port_2002_cex :
    descriptorWrites (webhook (fun _ _ => "aa") [1]
        ⟨["acme", "globex"], [("acme", ["widgets"]), ("globex", [])]⟩
        (.completed ⟨0, "", ""⟩) (.completed ⟨0, "", ""⟩) (some "sha256=aa") []
        (.obj ⟨some "acme/gadgets", some "v1", none⟩)).events
      = [compose_content "acme/gadgets" "v1" 2001] ∧
    compose_content "acme/gadgets" "v1" 2001 ≠ compose_content "acme/gadgets" "v1" 2002 := by
  exact ⟨by decide, by decide⟩

/-- C2 amended: the same end-to-end run writes a descriptor whose
external port is 2001 (the pre-request allocator value for the same pair
is 2002, but the directory created before allocation shifts the rank of
"gadgets" to 0), and the success response reports the same port 2001. -/
theorem port_2001_amended :
    descriptorWrites (webhook (fun _ _ => "aa") [1]
        ⟨["acme", "globex"], [("acme", ["widgets"]), ("globex", [])]⟩
        (.completed ⟨0, "", ""⟩) (.completed ⟨0, "", ""⟩) (some "sha256=aa") []
        (.obj ⟨some "acme/gadgets", some "v1", none⟩)).events
      = [compose_content "acme/gadgets" "v1" 2001] ∧
    (webhook (fun _ _ => "aa") [1]
        ⟨["acme", "globex"], [("acme", ["widgets"]), ("globex", [])]⟩
        (.completed ⟨0, "", ""⟩) (.completed ⟨0, "", ""⟩) (some "sha256=aa") []
        (.obj ⟨some "acme/gadgets", some "v1", none⟩)).response
      = ⟨200, .jsonSuccess "success" "acme/gadgets" "v1" 2001 "Deployed successfully"⟩ ∧
    get_port_for_repo ⟨["acme", "globex"], [("acme", ["widgets"]), ("globex", [])]⟩
        "acme" "gadgets" = 2002 ∧
    get_port_for_repo (mkdirRepo ⟨["acme", "globex"], [("acme", ["widgets"]), ("globex", [])]⟩
        "acme" "gadgets") "acme" "gadgets" = 2001 := by
  exact ⟨by decide, by decide, by decide, by decide⟩

/-- C3 is false as stated: the repo string "a/", whose name part is
empty after splitting at the separator, passes validation (it is
non-empty, has exactly one slash and all its characters are in the
allowed set) and the request proceeds to a 200 instead of being rejected
with 400 "Invalid repo format". -/
theorem empty_name_part_accepted_cex :
    validRepo "a/" = true ∧ (splitRepo "a/").2 = "" ∧
    (webhook (fun _ _ => "aa") [1] ⟨[], []⟩ (.completed ⟨0, "", ""⟩)
        (.completed ⟨0, "", ""⟩) (some "sha256=aa") []
        (.obj ⟨some "a/", some "v1", none⟩)).response.status = 200 := by
  exact ⟨by decide, by decide, by decide⟩

/-- C3 amended: validation accepts a repo string exactly when it
contains exactly one '/' and every character is alphanumeric or one of
'-', '_', '.', '/'; the owner part or the name part may be empty (for
example "a/" and "/a" are accepted). -/
theorem validRepo_amended :
    (∀ s : String, validRepo s = true ↔
      (s.toList.count '/' = 1 ∧ ∀ c ∈ s.toList, allowedChar c = true)) ∧
    validRepo "a/" = true ∧ validRepo "/a" = true := by
  refine ⟨?_, by decide, by decide⟩
  intro s
  simp only [validRepo, Bool.and_eq_true, Bool.not_eq_true', beq_iff_eq,
    beq_eq_false_iff_ne, List.all_eq_true]
  constructor
  · rintro ⟨⟨hne, hc⟩, hall⟩
    exact ⟨hc, hall⟩
  · rintro ⟨hc, hall⟩
    refine ⟨⟨?_, hc⟩, hall⟩
    intro he
    subst he
    exact absurd hc (by decide)

/-- Witness for the amended C3 at a concrete accepted repo string. -/
theorem validRepo_amended_w : validRepo "ab/cd" = true :=
  (validRepo_amended.1 "ab/cd").mpr (by decide)

end WebhookDeployer
